import Mathlib

/-!
# Verification of the Zawa message-relay service (`src/main.py`)

Shallow embedding of the FastAPI relay in `src/main.py`: the two Pydantic
payload models, the stock-alert message template, the upstream request-body
construction, the upstream call wrapper `call_zawa_api` with its error
mapping, and the startup credential check.

Modelling conventions:
* Python dicts (JSON objects) are association lists `List (String × JValue)`
  with dict semantics: inserting an existing key overwrites its value.
* The outcome of the single `requests.post` call is a value of
  `UpstreamResult`: either an HTTP response (status code, raw text, and the
  result of `response.json()`), or a transport-level failure
  (`requests.exceptions.RequestException` with no response).
* `Response.raise_for_status` raises `requests.exceptions.HTTPError`
  exactly for status codes in `[400, 600)` (4xx client errors and 5xx server
  errors), per the `requests` library; the source comments this itself
  ("Raise an exception for 4xx/5xx status codes").
* `response.json()` on a body that is not valid JSON raises
  `requests.exceptions.JSONDecodeError`, which (since `requests` 2.27, the
  only line installable today — the repo pins no version) is a subclass of
  `RequestException` and is therefore caught by the second `except` branch.
* Raising `fastapi.HTTPException status_code=c detail=d` makes the caller
  receive HTTP status `c` with body `{"detail": d}`; a successful return
  value is serialized with status 200.
* Python truthiness of an `Optional[str]` (`not x`) is false exactly for
  `None` and `""`, embedded as `truthyOpt`.
-/

/-- JSON values, as produced by parsing a request or upstream body. -/
inductive JValue where
  | null
  | bool (b : Bool)
  | num (n : Int)
  | str (s : String)
  | arr (elems : List JValue)
  | obj (fields : List (String × JValue))

/-- First value bound to `key`, i.e. Python `d[key]` / `d.get(key)` on a
JSON object represented as an association list. -/
def lookupKV : List (String × JValue) → String → Option JValue
  | [], _ => none
  | (k, v) :: rest, key => if k = key then some v else lookupKV rest key

/-- Python dict insertion `d[key] = val`: overwrite the value if the key is
present, otherwise append the new pair at the end. -/
def insertKV : List (String × JValue) → String → JValue → List (String × JValue)
  | [], key, val => [(key, val)]
  | (k, v) :: rest, key, val =>
    if k = key then (k, val) :: rest else (k, v) :: insertKV rest key val

/-- `GenericMessagePayload` (src/main.py lines 92–96): `phone : str`,
`message_type : str` (JSON alias `"type"`), `content : Dict[str, Any]`. -/
structure GenericMessagePayload where
  phone : String
  message_type : String
  content : List (String × JValue)

/-- `StockNotificationPayload` (src/main.py lines 98–104). -/
structure StockNotificationPayload where
  phone : String
  pic_name : String
  material_id : String
  short_desc : String
  stock : Int

/-- The f-string built by `send_stock_notification_endpoint`
(src/main.py lines 141–149), fragment by fragment; `{payload.stock}`
formats the integer via Python `str`, embedded as `toString`. -/
def renderStockMessage (p : StockNotificationPayload) : String :=
  "⚠️ *MINIMUM STOCK ALERT* ⚠️\n\n" ++
  "Hello *" ++ p.pic_name ++ "*,\n\n" ++
  "The following material has fallen below the minimum stock level:\n\n" ++
  "*- Material:* " ++ p.short_desc ++ "\n" ++
  "*- Material ID:* " ++ p.material_id ++ "\n" ++
  "*- CURRENT STOCK:* *" ++ toString p.stock ++ "*\n\n" ++
  "Please take *IMMEDIATE ACTION* to replenish the stock."

/-- The fixed template stated by the specification (section 4.1's code
block, lines joined by newlines) with the four fields substituted; written
from the spec's words, to be compared with `renderStockMessage`. -/
def specStockTemplate (pic_name short_desc material_id : String) (stock : Int) : String :=
  "⚠️ *MINIMUM STOCK ALERT* ⚠️\n\n" ++
  "Hello *" ++ pic_name ++ "*,\n\n" ++
  "The following material has fallen below the minimum stock level:\n\n" ++
  "*- Material:* " ++ short_desc ++ "\n" ++
  "*- Material ID:* " ++ material_id ++ "\n" ++
  "*- CURRENT STOCK:* *" ++ toString stock ++ "*\n\n" ++
  "Please take *IMMEDIATE ACTION* to replenish the stock."

/-- The dict literal `{"phone": payload.phone, "type": payload.message_type,
**payload.content}` of src/main.py lines 118–122: the two fixed entries are
inserted first, then the entries of `content` in order (so on a key
collision the `content` value overwrites the fixed one). -/
def buildGenericBody (phone message_type : String)
    (content : List (String × JValue)) : List (String × JValue) :=
  content.foldl (fun m kv => insertKV m kv.1 kv.2)
    [("phone", JValue.str phone), ("type", JValue.str message_type)]

/-- The dict `zawa_body` of src/main.py lines 151–155. -/
def stockZawaBody (p : StockNotificationPayload) : List (String × JValue) :=
  [("phone", JValue.str p.phone),
   ("type", JValue.str "text"),
   ("text", JValue.str (renderStockMessage p))]

/-- Python truthiness of an `Optional[str]`: `None` and `""` are falsy. -/
def truthyOpt : Option String → Bool
  | none => false
  | some s => !s.isEmpty

/-- Outcome of the `requests.post` call inside `call_zawa_api`:
either an HTTP response was produced — carrying its status code, its raw
body text (`response.text`), and the result of `response.json()` (`.ok` a
parsed value, or `.error` with the `JSONDecodeError` message) — or the
transport failed with no response (`RequestException`, e.g. connection
refused, timeout, DNS failure) carrying the exception's description. -/
inductive UpstreamResult where
  | response (status : Nat) (text : String) (jsonResult : Except String JValue)
  | connectionFailure (errMsg : String)

/-- A raised `fastapi.HTTPException`. -/
structure HTTPException where
  status_code : Nat
  detail : String

/-- Result of running `call_zawa_api`: the JSON body handed to
`requests.post` when that call was executed (`none` means no outbound
upstream request was attempted), and either the returned parsed JSON or the
raised `HTTPException`. -/
structure CallResult where
  sentBody : Option (List (String × JValue))
  result : Except HTTPException JValue

/-- `call_zawa_api` (src/main.py lines 41–88).  The credential guard tests
`instance_id is None or session_id is None` — `None` only, an empty string
passes.  Then `requests.post` is executed; `raise_for_status` raises
`HTTPError` for status codes in `[400, 600)`, caught by the first `except`
branch (upstream's status code, detail prefixed `"Error from Zawa API: "`
plus the raw `response.text`); any other `RequestException` — a transport
failure from `post` itself, or a `JSONDecodeError` from `response.json()` —
is caught by the second branch (503, detail prefixed
`"Could not connect to Zawa API: "`). -/
def call_zawa_api (instance_id session_id : Option String)
    (body : List (String × JValue)) (upstream : UpstreamResult) : CallResult :=
  if instance_id = none ∨ session_id = none then
    ⟨none, .error ⟨500,
      "ZAWA_INSTANCE_ID and ZAWA_SESSION_ID must be set in the environment or .env file."⟩⟩
  else
    match upstream with
    | .connectionFailure msg =>
      ⟨some body, .error ⟨503, "Could not connect to Zawa API: " ++ msg⟩⟩
    | .response status text jsonResult =>
      if 400 ≤ status ∧ status < 600 then
        ⟨some body, .error ⟨status, "Error from Zawa API: " ++ text⟩⟩
      else
        match jsonResult with
        | .ok v => ⟨some body, .ok v⟩
        | .error jsonErrMsg =>
          ⟨some body, .error ⟨503, "Could not connect to Zawa API: " ++ jsonErrMsg⟩⟩

/-- The caller-visible reply: HTTP status and JSON body. -/
structure EndpointResponse where
  status : Nat
  body : JValue

/-- What the endpoint handler produced: the body of the outbound upstream
request when one was attempted (`none` otherwise), and the caller-visible
HTTP reply. -/
structure RequestResult where
  sentBody : Option (List (String × JValue))
  response : EndpointResponse

/-- FastAPI's rendering of a raised `HTTPException`: `{"detail": <detail>}`. -/
def errorBody (detail : String) : JValue :=
  JValue.obj [("detail", JValue.str detail)]

/-- The success envelope `{"status": "success", "zawa_response": v}`. -/
def successEnvelope (v : JValue) : JValue :=
  JValue.obj [("status", JValue.str "success"), ("zawa_response", v)]

/-- `send_generic_message_endpoint` (src/main.py lines 110–133): builds the
merged body, then checks `not ZAWA_INSTANCE_ID or not ZAWA_SESSION_ID`
(Python truthiness, so `None` or `""` fail) raising a 500 before any
upstream call, and otherwise forwards through `call_zawa_api` and wraps a
successful result in the success envelope. -/
def send_generic_message_endpoint (iid sid : Option String)
    (payload : GenericMessagePayload) (upstream : UpstreamResult) : RequestResult :=
  let zawa_body := buildGenericBody payload.phone payload.message_type payload.content
  if !truthyOpt iid || !truthyOpt sid then
    ⟨none, ⟨500, errorBody
      "ZAWA_INSTANCE_ID and ZAWA_SESSION_ID must be set in the environment or .env file."⟩⟩
  else
    match call_zawa_api iid sid zawa_body upstream with
    | ⟨sent, .ok v⟩ => ⟨sent, ⟨200, successEnvelope v⟩⟩
    | ⟨sent, .error e⟩ => ⟨sent, ⟨e.status_code, errorBody e.detail⟩⟩

/-- `send_stock_notification_endpoint` (src/main.py lines 136–164): renders
the message, builds `stockZawaBody`, and calls `call_zawa_api` directly —
unlike the generic endpoint it performs no truthiness check of its own, so
only `call_zawa_api`'s `is None` guard applies. -/
def send_stock_notification_endpoint (iid sid : Option String)
    (payload : StockNotificationPayload) (upstream : UpstreamResult) : RequestResult :=
  match call_zawa_api iid sid (stockZawaBody payload) upstream with
  | ⟨sent, .ok v⟩ => ⟨sent, ⟨200, successEnvelope v⟩⟩
  | ⟨sent, .error e⟩ => ⟨sent, ⟨e.status_code, errorBody e.detail⟩⟩

/-- `startup_event` (src/main.py lines 29–36): raises a fatal `RuntimeError`
when `not ZAWA_INSTANCE_ID or not ZAWA_SESSION_ID` (truthiness: `None` or
`""`); FastAPI aborts startup when a startup handler raises, so the process
never begins serving. -/
def startup_event (iid sid : Option String) : Except String Unit :=
  if !truthyOpt iid || !truthyOpt sid then
    .error ("FATAL: ZAWA_INSTANCE_ID and ZAWA_SESSION_ID must be set " ++
      "in the environment or a .env file.")
  else
    .ok ()

/-- Pydantic validation of one required `str` field of
`GenericMessagePayload`: the key must be present and hold a JSON string —
any string, Pydantic declares no minimum length, so `""` is accepted.
A failure carries the field name and Pydantic's message. -/
def checkStr (raw : List (String × JValue)) (key : String) :
    Except (String × String) String :=
  match lookupKV raw key with
  | none => .error (key, "Field required")
  | some (JValue.str s) => .ok s
  | some _ => .error (key, "Input should be a valid string")

/-- Pydantic validation of the required `content : Dict[str, Any]` field:
the key must be present and hold a JSON object (possibly empty). -/
def checkObj (raw : List (String × JValue)) (key : String) :
    Except (String × String) (List (String × JValue)) :=
  match lookupKV raw key with
  | none => .error (key, "Field required")
  | some (JValue.obj kvs) => .ok kvs
  | some _ => .error (key, "Input should be a valid dictionary")

/-- The field errors contributed by one field check. -/
def errOf {α : Type} : Except (String × String) α → List (String × String)
  | .error e => [e]
  | .ok _ => []

/-- FastAPI/Pydantic validation of a `POST /send-message/` body against
`GenericMessagePayload` (src/main.py lines 92–96): `phone` and the aliased
`type` must be present strings and `content` a present object; all field
errors are collected, as Pydantic does.  No constraint beyond presence and
type is declared, so empty strings pass. -/
def validateGenericPayload (raw : List (String × JValue)) :
    Except (List (String × String)) GenericMessagePayload :=
  match checkStr raw "phone", checkStr raw "type", checkObj raw "content" with
  | .ok p, .ok t, .ok c => .ok ⟨p, t, c⟩
  | ep, et, ec => .error (errOf ep ++ errOf et ++ errOf ec)

/-- FastAPI's 422 body for request-validation failures:
`{"detail": [{"loc": ["body", <field>], "msg": <msg>}, ...]}`. -/
def validationErrorBody (errors : List (String × String)) : JValue :=
  JValue.obj [("detail", JValue.arr (errors.map fun e =>
    JValue.obj [("loc", JValue.arr [JValue.str "body", JValue.str e.1]),
                ("msg", JValue.str e.2)]))]

/-- The whole `POST /send-message/` request path: FastAPI validates the raw
JSON body against `GenericMessagePayload` — rejecting with a 422 and field
detail before any handler code runs — and on success runs
`send_generic_message_endpoint`. -/
def handle_send_message (iid sid : Option String)
    (raw : List (String × JValue)) (upstream : UpstreamResult) : RequestResult :=
  match validateGenericPayload raw with
  | .error es => ⟨none, ⟨422, validationErrorBody es⟩⟩
  | .ok payload => send_generic_message_endpoint iid sid payload upstream

/-- A concrete stock-alert payload (the example of spec section 8). -/
def sampleStockPayload : StockNotificationPayload :=
  ⟨"628123", "Budi", "CHEM-0042", "Hydrochloric Acid", 5⟩

/-- A concrete generic-message payload. -/
def sampleGenericPayload : GenericMessagePayload :=
  ⟨"628123", "text", [("text", JValue.str "hello")]⟩

theorem lookupKV_insertKV (m : List (String × JValue)) (key : String) (val : JValue)
    (k : String) :
    lookupKV (insertKV m key val) k = if key = k then some val else lookupKV m k := by
  induction m with
  | nil => simp [insertKV, lookupKV]
  | cons hd tl ih =>
    obtain ⟨hk, hv⟩ := hd
    by_cases h1 : hk = key
    · subst h1
      by_cases h2 : hk = k <;> simp [insertKV, lookupKV, h2]
    · by_cases h2 : hk = k
      · subst h2
        have hne : ¬key = hk := fun hh => h1 hh.symm
        simp [insertKV, lookupKV, h1, hne]
      · simp [insertKV, lookupKV, h1, h2, ih]

theorem lookupKV_eq_none_of_not_mem (m : List (String × JValue)) (key : String)
    (h : key ∉ m.map Prod.fst) : lookupKV m key = none := by
  induction m with
  | nil => rfl
  | cons hd tl ih =>
    obtain ⟨hk, hv⟩ := hd
    simp only [List.map_cons, List.mem_cons, not_or] at h
    have hne : ¬hk = key := fun hh => h.1 hh.symm
    simp [lookupKV, hne, ih h.2]

theorem lookupKV_foldl_of_none (c m : List (String × JValue)) (k : String)
    (h : lookupKV c k = none) :
    lookupKV (c.foldl (fun m kv => insertKV m kv.1 kv.2) m) k = lookupKV m k := by
  induction c generalizing m with
  | nil => rfl
  | cons hd tl ih =>
    obtain ⟨k₀, v₀⟩ := hd
    simp only [lookupKV] at h
    by_cases h0 : k₀ = k
    · simp [h0] at h
    · simp only [if_neg h0] at h
      simp only [List.foldl_cons, ih _ h, lookupKV_insertKV, if_neg h0]

theorem lookupKV_foldl_of_some (c m : List (String × JValue)) (k : String) (v : JValue)
    (hnd : (c.map Prod.fst).Nodup) (h : lookupKV c k = some v) :
    lookupKV (c.foldl (fun m kv => insertKV m kv.1 kv.2) m) k = some v := by
  induction c generalizing m with
  | nil => simp [lookupKV] at h
  | cons hd tl ih =>
    obtain ⟨k₀, v₀⟩ := hd
    simp only [List.map_cons, List.nodup_cons] at hnd
    simp only [lookupKV] at h
    by_cases h0 : k₀ = k
    · subst h0
      rw [if_pos rfl] at h
      injection h with h
      subst h
      have hnone : lookupKV tl k₀ = none := lookupKV_eq_none_of_not_mem _ _ hnd.1
      rw [List.foldl_cons, lookupKV_foldl_of_none _ _ _ hnone,
        lookupKV_insertKV, if_pos rfl]
    · simp only [if_neg h0] at h
      simpa using ih _ hnd.2 h

theorem mem_keys_insertKV (m : List (String × JValue)) (key : String) (val : JValue)
    (a : String) :
    a ∈ (insertKV m key val).map Prod.fst ↔ a = key ∨ a ∈ m.map Prod.fst := by
  induction m with
  | nil => simp [insertKV]
  | cons hd tl ih =>
    obtain ⟨hk, hv⟩ := hd
    simp only [insertKV]
    by_cases h1 : hk = key
    · rw [if_pos h1]
      subst h1
      simp only [List.map_cons, List.mem_cons]
      tauto
    · rw [if_neg h1]
      simp only [List.map_cons, List.mem_cons, ih]
      tauto

theorem mem_keys_foldl (c m : List (String × JValue)) (a : String) :
    a ∈ ((c.foldl (fun m kv => insertKV m kv.1 kv.2) m).map Prod.fst) ↔
      a ∈ m.map Prod.fst ∨ a ∈ c.map Prod.fst := by
  induction c generalizing m with
  | nil => simp
  | cons hd tl ih =>
    obtain ⟨k₀, v₀⟩ := hd
    simp only [List.foldl_cons, ih, mem_keys_insertKV, List.map_cons, List.mem_cons]
    tauto


theorem append_ne_append_of_head_ne (s₁ s₂ t₁ t₂ : String) (c₁ c₂ : Char)
    (h₁ : s₁.data.head? = some c₁) (h₂ : s₂.data.head? = some c₂) (hne : c₁ ≠ c₂) :
    s₁ ++ t₁ ≠ s₂ ++ t₂ := by
  intro he
  obtain ⟨d₁⟩ := s₁
  obtain ⟨d₂⟩ := s₂
  obtain ⟨e₁⟩ := t₁
  obtain ⟨e₂⟩ := t₂
  have hd : d₁ ++ e₁ = d₂ ++ e₂ := congrArg String.data he
  have h₁x : d₁.head? = some c₁ := h₁
  have h₂x : d₂.head? = some c₂ := h₂
  cases d₁ with
  | nil => simp at h₁x
  | cons a l =>
    cases d₂ with
    | nil => simp at h₂x
    | cons b l' =>
      simp only [List.head?] at h₁x h₂x
      injection h₁x with h₁x
      injection h₂x with h₂x
      rw [List.cons_append, List.cons_append] at hd
      injection hd with hab
      subst h₁x
      subst h₂x
      exact hne hab

/-- C1: for every valid `StockNotificationRequest`, the rendered notification
text exactly equals the fixed spec template — header, greeting, the
material / material-id / stock lines in that order, and the closing
call-to-action — with `pic_name`, `short_desc`, `material_id` and `stock`
substituted verbatim, for every integer stock value. -/
theorem stock_message_matches_spec_template (p : StockNotificationPayload) :
    renderStockMessage p =
      specStockTemplate p.pic_name p.short_desc p.material_id p.stock := rfl

/-- C9: the upstream body built by the stock-notification endpoint has
exactly the three keys `phone`, `type`, `text` in that order, and its `type`
entry is the literal string `"text"`, whatever the payload holds. -/
theorem stock_body_keys_and_type (p : StockNotificationPayload) :
    (stockZawaBody p).map Prod.fst = ["phone", "type", "text"] ∧
    lookupKV (stockZawaBody p) "type" = some (JValue.str "text") :=
  ⟨rfl, rfl⟩

/-- C2: for every valid `GenericMessageRequest` (its `content` being a
parsed JSON object, hence with pairwise-distinct keys), the upstream body is
the union of `{phone, type}` with `content`: every content key/value pair is
reproduced exactly and, because `content` is merged after the fixed fields,
its value wins when it collides with `phone` or `type`; keys not in
`content` fall back to the fixed fields, and the body holds no other key. -/
theorem generic_body_is_union_with_content_precedence
    (phone mtype : String) (content : List (String × JValue))
    (hnd : (content.map Prod.fst).Nodup) (k : String) :
    (∀ v, lookupKV content k = some v →
      lookupKV (buildGenericBody phone mtype content) k = some v) ∧
    (lookupKV content k = none →
      lookupKV (buildGenericBody phone mtype content) k =
        if k = "phone" then some (JValue.str phone)
        else if k = "type" then some (JValue.str mtype) else none) ∧
    (k ∈ (buildGenericBody phone mtype content).map Prod.fst ↔
      k = "phone" ∨ k = "type" ∨ k ∈ content.map Prod.fst) := by
  refine ⟨fun v hv => lookupKV_foldl_of_some _ _ _ _ hnd hv, fun hn => ?_, ?_⟩
  · rw [buildGenericBody, lookupKV_foldl_of_none _ _ _ hn]
    by_cases h1 : k = "phone"
    · simp [lookupKV, h1]
    · by_cases h2 : k = "type"
      · simp [lookupKV, h2, Ne.symm h1]
      · simp [lookupKV, h1, h2, Ne.symm h1, Ne.symm h2]
  · rw [buildGenericBody, mem_keys_foldl]
    simp only [List.map_cons, List.map_nil, List.mem_cons, List.not_mem_nil, or_false]
    tauto

/-- Witness for C2: a content map that collides on `phone` has distinct keys,
and its value indeed overrides the fixed `phone` field in the merged body. -/
theorem generic_body_union_witness :
    (([("text", JValue.str "hello"), ("phone", JValue.str "override")].map
      Prod.fst).Nodup) ∧
    lookupKV (buildGenericBody "628123" "text"
        [("text", JValue.str "hello"), ("phone", JValue.str "override")]) "phone" =
      some (JValue.str "override") :=
  ⟨by decide,
   (generic_body_is_union_with_content_precedence "628123" "text"
      [("text", JValue.str "hello"), ("phone", JValue.str "override")]
      (by decide) "phone").1 (JValue.str "override") rfl⟩

/-- C3: on either endpoint, when credentials pass the guards and the
upstream call returns a 2xx response whose body parses as JSON, the caller
receives status 200 with `{status: "success", zawa_response: <that JSON>}`,
the upstream object passed through unmodified. -/
theorem upstream_2xx_success_envelope (iid sid : Option String)
    (gp : GenericMessagePayload) (sp : StockNotificationPayload)
    (st : Nat) (text : String) (j : JValue)
    (hi : truthyOpt iid = true) (hs : truthyOpt sid = true)
    (h2 : 200 ≤ st) (h3 : st < 300) :
    send_generic_message_endpoint iid sid gp (.response st text (.ok j)) =
      ⟨some (buildGenericBody gp.phone gp.message_type gp.content),
       ⟨200, successEnvelope j⟩⟩ ∧
    send_stock_notification_endpoint iid sid sp (.response st text (.ok j)) =
      ⟨some (stockZawaBody sp), ⟨200, successEnvelope j⟩⟩ := by
  have hcred : ¬(iid = none ∨ sid = none) := by
    rintro (h | h) <;> simp [h, truthyOpt] at hi hs
  have hrange : ¬(400 ≤ st ∧ st < 600) := by omega
  constructor
  · simp [send_generic_message_endpoint, hi, hs, call_zawa_api, hcred, hrange]
  · simp [send_stock_notification_endpoint, call_zawa_api, hcred, hrange]

/-- Witness for C3: both endpoints wrap a concrete upstream 200 JSON reply
in the success envelope. -/
theorem upstream_2xx_success_envelope_witness :
    send_generic_message_endpoint (some "inst") (some "sess") sampleGenericPayload
      (.response 200 "{}" (.ok (JValue.obj [("id", JValue.num 7)]))) =
      ⟨some (buildGenericBody sampleGenericPayload.phone
          sampleGenericPayload.message_type sampleGenericPayload.content),
       ⟨200, successEnvelope (JValue.obj [("id", JValue.num 7)])⟩⟩ ∧
    send_stock_notification_endpoint (some "inst") (some "sess") sampleStockPayload
      (.response 200 "{}" (.ok (JValue.obj [("id", JValue.num 7)]))) =
      ⟨some (stockZawaBody sampleStockPayload),
       ⟨200, successEnvelope (JValue.obj [("id", JValue.num 7)])⟩⟩ :=
  upstream_2xx_success_envelope (some "inst") (some "sess") sampleGenericPayload
    sampleStockPayload 200 "{}" (JValue.obj [("id", JValue.num 7)])
    rfl rfl (by decide) (by decide)

/-- C5: on either endpoint, when the outbound call fails at transport level
(connection refused, timeout, DNS failure — a `RequestException` with no
response), the caller receives status 503 with a detail embedding the
transport error description. -/
theorem transport_failure_maps_to_503 (iid sid : Option String)
    (gp : GenericMessagePayload) (sp : StockNotificationPayload) (msg : String)
    (hi : truthyOpt iid = true) (hs : truthyOpt sid = true) :
    send_generic_message_endpoint iid sid gp (.connectionFailure msg) =
      ⟨some (buildGenericBody gp.phone gp.message_type gp.content),
       ⟨503, errorBody ("Could not connect to Zawa API: " ++ msg)⟩⟩ ∧
    send_stock_notification_endpoint iid sid sp (.connectionFailure msg) =
      ⟨some (stockZawaBody sp),
       ⟨503, errorBody ("Could not connect to Zawa API: " ++ msg)⟩⟩ := by
  have hcred : ¬(iid = none ∨ sid = none) := by
    rintro (h | h) <;> simp [h, truthyOpt] at hi hs
  constructor
  · simp [send_generic_message_endpoint, hi, hs, call_zawa_api, hcred]
  · simp [send_stock_notification_endpoint, call_zawa_api, hcred]

/-- Witness for C5: a concrete connection-refused failure yields 503 on both
endpoints, with the transport description in the detail. -/
theorem transport_failure_maps_to_503_witness :
    send_generic_message_endpoint (some "inst") (some "sess") sampleGenericPayload
      (.connectionFailure "Connection refused") =
      ⟨some (buildGenericBody sampleGenericPayload.phone
          sampleGenericPayload.message_type sampleGenericPayload.content),
       ⟨503, errorBody ("Could not connect to Zawa API: " ++ "Connection refused")⟩⟩ ∧
    send_stock_notification_endpoint (some "inst") (some "sess") sampleStockPayload
      (.connectionFailure "Connection refused") =
      ⟨some (stockZawaBody sampleStockPayload),
       ⟨503, errorBody ("Could not connect to Zawa API: " ++ "Connection refused")⟩⟩ :=
  transport_failure_maps_to_503 (some "inst") (some "sess") sampleGenericPayload
    sampleStockPayload "Connection refused" rfl rfl

/-- C7: if the instance id or the session id is absent (`None`) or empty at
startup, `startup_event` raises the fatal `RuntimeError` (FastAPI then
aborts startup), rather than silently proceeding. -/
theorem startup_rejects_missing_credentials (iid sid : Option String)
    (h : iid = none ∨ iid = some "" ∨ sid = none ∨ sid = some "") :
    startup_event iid sid =
      .error ("FATAL: ZAWA_INSTANCE_ID and ZAWA_SESSION_ID must be set " ++
        "in the environment or a .env file.") := by
  have he : "".isEmpty = true := rfl
  have hb : (!truthyOpt iid || !truthyOpt sid) = true := by
    rcases h with h | h | h | h <;> subst h <;> simp [truthyOpt, he]
  simp [startup_event, hb]

/-- Witness for C7: an absent instance id makes startup fail. -/
theorem startup_rejects_missing_credentials_witness :
    startup_event none (some "sess") =
      .error ("FATAL: ZAWA_INSTANCE_ID and ZAWA_SESSION_ID must be set " ++
        "in the environment or a .env file.") :=
  startup_rejects_missing_credentials none (some "sess") (Or.inl rfl)

/-- Counterexample to C4 as stated: an upstream response with the non-2xx
status 304 (which `raise_for_status` does not raise for — it only raises for
4xx/5xx) and a JSON body is not surfaced as a 304 `UpstreamError`; the relay
returns 200 with the success envelope instead. -/
theorem upstream_304_returns_success_counterexample :
    send_generic_message_endpoint (some "inst") (some "sess") sampleGenericPayload
      (.response 304 "{}" (.ok (JValue.obj []))) =
      ⟨some (buildGenericBody sampleGenericPayload.phone
          sampleGenericPayload.message_type sampleGenericPayload.content),
       ⟨200, successEnvelope (JValue.obj [])⟩⟩ ∧ (200 : Nat) ≠ 304 :=
  ⟨rfl, by decide⟩

/-- C4 (amended): on either endpoint, when the upstream API responds with a
4xx or 5xx status code — the range `raise_for_status` raises for — the relay
fails with that same status code and a detail carrying the raw upstream
response text verbatim, prefixed `"Error from Zawa API: "`; non-2xx codes
outside 400–599 (e.g. 304) do not take this branch. -/
theorem upstream_4xx5xx_surfaced_verbatim (iid sid : Option String)
    (gp : GenericMessagePayload) (sp : StockNotificationPayload)
    (st : Nat) (text : String) (jres : Except String JValue)
    (hi : truthyOpt iid = true) (hs : truthyOpt sid = true)
    (h4 : 400 ≤ st) (h6 : st < 600) :
    send_generic_message_endpoint iid sid gp (.response st text jres) =
      ⟨some (buildGenericBody gp.phone gp.message_type gp.content),
       ⟨st, errorBody ("Error from Zawa API: " ++ text)⟩⟩ ∧
    send_stock_notification_endpoint iid sid sp (.response st text jres) =
      ⟨some (stockZawaBody sp),
       ⟨st, errorBody ("Error from Zawa API: " ++ text)⟩⟩ := by
  have hcred : ¬(iid = none ∨ sid = none) := by
    rintro (h | h) <;> simp [h, truthyOpt] at hi hs
  have hrange : 400 ≤ st ∧ st < 600 := ⟨h4, h6⟩
  constructor
  · simp [send_generic_message_endpoint, hi, hs, call_zawa_api, hcred, hrange]
  · simp [send_stock_notification_endpoint, call_zawa_api, hcred, hrange]

/-- Witness for the amended C4, at the spec example: upstream 429 with body
`"rate limited"` yields a caller-visible 429 whose detail contains the
literal text `"rate limited"`. -/
theorem upstream_429_rate_limited_witness :
    send_generic_message_endpoint (some "inst") (some "sess") sampleGenericPayload
      (.response 429 "rate limited" (.error "no json")) =
      ⟨some (buildGenericBody sampleGenericPayload.phone
          sampleGenericPayload.message_type sampleGenericPayload.content),
       ⟨429, errorBody ("Error from Zawa API: " ++ "rate limited")⟩⟩ :=
  (upstream_4xx5xx_surfaced_verbatim (some "inst") (some "sess")
    sampleGenericPayload sampleStockPayload 429 "rate limited" (.error "no json")
    rfl rfl (by decide) (by decide)).1

/-- Counterexample to C6 as stated: with an empty (but present) instance id,
the stock-notification endpoint does not fail with a 500
`ConfigurationError` — `call_zawa_api` only guards against `None`, and the
stock endpoint has no truthiness check of its own — so the upstream call is
made (`sentBody` is `some _`) and the upstream reply is returned. -/
theorem stock_endpoint_empty_credentials_counterexample :
    send_stock_notification_endpoint (some "") (some "sess") sampleStockPayload
      (.response 200 "{}" (.ok (JValue.obj []))) =
      ⟨some (stockZawaBody sampleStockPayload),
       ⟨200, successEnvelope (JValue.obj [])⟩⟩ ∧ (200 : Nat) ≠ 500 :=
  ⟨rfl, by decide⟩

/-- C6 (amended): absent (`None`) credentials fail with a 500 configuration
error and no upstream call on both endpoints; the generic endpoint
additionally rejects empty-string credentials (Python truthiness) before
calling.  The stock endpoint performs no emptiness check, so only the `None`
guard protects it. -/
theorem credential_guards_by_endpoint (iid sid : Option String)
    (gp : GenericMessagePayload) (sp : StockNotificationPayload)
    (up : UpstreamResult) :
    ((iid = none ∨ sid = none) →
      send_stock_notification_endpoint iid sid sp up =
        ⟨none, ⟨500, errorBody ("ZAWA_INSTANCE_ID and ZAWA_SESSION_ID must be set" ++
          " in the environment or .env file.")⟩⟩) ∧
    ((truthyOpt iid = false ∨ truthyOpt sid = false) →
      send_generic_message_endpoint iid sid gp up =
        ⟨none, ⟨500, errorBody ("ZAWA_INSTANCE_ID and ZAWA_SESSION_ID must be set" ++
          " in the environment or .env file.")⟩⟩) := by
  constructor
  · intro h
    simp [send_stock_notification_endpoint, call_zawa_api, h]
  · intro h
    have hb : (!truthyOpt iid || !truthyOpt sid) = true := by
      rcases h with h | h <;> simp [h]
    simp [send_generic_message_endpoint, hb]

/-- Witness for the amended C6: an absent instance id yields the 500
configuration error with no upstream call on the stock endpoint. -/
theorem credential_guards_by_endpoint_witness :
    send_stock_notification_endpoint none (some "sess") sampleStockPayload
      (.connectionFailure "unused") =
      ⟨none, ⟨500, errorBody ("ZAWA_INSTANCE_ID and ZAWA_SESSION_ID must be set" ++
        " in the environment or .env file.")⟩⟩ :=
  (credential_guards_by_endpoint none (some "sess") sampleGenericPayload
    sampleStockPayload (.connectionFailure "unused")).1 (Or.inl rfl)

/-- Counterexample to C8 as stated: a generic-message request whose `phone`
is the empty string is not rejected — Pydantic's `str` accepts `""` since no
minimum length is declared — so validation passes and the upstream call is
made. -/
theorem empty_phone_accepted_counterexample :
    handle_send_message (some "inst") (some "sess")
      [("phone", JValue.str ""), ("type", JValue.str "text"),
       ("content", JValue.obj [("text", JValue.str "hi")])]
      (.response 200 "{}" (.ok (JValue.obj []))) =
      ⟨some (buildGenericBody "" "text" [("text", JValue.str "hi")]),
       ⟨200, successEnvelope (JValue.obj [])⟩⟩ ∧ (200 : Nat) ≠ 422 :=
  ⟨rfl, by decide⟩

/-- C8 (amended): a generic-message request whose `phone` or `type` field is
missing or not a string, or whose `content` is missing or not a key-value
map, is rejected with a 422 carrying field-level detail that names the
offending field, and no upstream call is made; empty strings, however, pass
validation. -/
theorem missing_or_mistyped_fields_rejected_422 (iid sid : Option String)
    (raw : List (String × JValue)) (up : UpstreamResult) :
    ((∀ s, lookupKV raw "phone" ≠ some (JValue.str s)) →
      handle_send_message iid sid raw up =
        ⟨none, ⟨422, validationErrorBody
          (errOf (checkStr raw "phone") ++ errOf (checkStr raw "type") ++
            errOf (checkObj raw "content"))⟩⟩ ∧
      "phone" ∈ (errOf (checkStr raw "phone") ++ errOf (checkStr raw "type") ++
        errOf (checkObj raw "content")).map Prod.fst) ∧
    ((∀ s, lookupKV raw "type" ≠ some (JValue.str s)) →
      handle_send_message iid sid raw up =
        ⟨none, ⟨422, validationErrorBody
          (errOf (checkStr raw "phone") ++ errOf (checkStr raw "type") ++
            errOf (checkObj raw "content"))⟩⟩ ∧
      "type" ∈ (errOf (checkStr raw "phone") ++ errOf (checkStr raw "type") ++
        errOf (checkObj raw "content")).map Prod.fst) ∧
    ((∀ kvs, lookupKV raw "content" ≠ some (JValue.obj kvs)) →
      handle_send_message iid sid raw up =
        ⟨none, ⟨422, validationErrorBody
          (errOf (checkStr raw "phone") ++ errOf (checkStr raw "type") ++
            errOf (checkObj raw "content"))⟩⟩ ∧
      "content" ∈ (errOf (checkStr raw "phone") ++ errOf (checkStr raw "type") ++
        errOf (checkObj raw "content")).map Prod.fst) := by
  have hstr : ∀ key : String, (∀ s, lookupKV raw key ≠ some (JValue.str s)) →
      ∃ msg, checkStr raw key = .error (key, msg) := by
    intro key h
    unfold checkStr
    rcases hl : lookupKV raw key with _ | v
    · exact ⟨"Field required", rfl⟩
    · cases v with
      | str s => exact absurd hl (h s)
      | _ => exact ⟨"Input should be a valid string", rfl⟩
  have hobj : (∀ kvs, lookupKV raw "content" ≠ some (JValue.obj kvs)) →
      ∃ msg, checkObj raw "content" = .error ("content", msg) := by
    intro h
    unfold checkObj
    rcases hl : lookupKV raw "content" with _ | v
    · exact ⟨"Field required", rfl⟩
    · cases v with
      | obj kvs => exact absurd hl (h kvs)
      | _ => exact ⟨"Input should be a valid dictionary", rfl⟩
  refine ⟨fun h => ?_, fun h => ?_, fun h => ?_⟩
  · obtain ⟨msg, hp⟩ := hstr "phone" h
    rcases ht : checkStr raw "type" with et | t <;>
      rcases hc : checkObj raw "content" with ec | c <;>
        simp [handle_send_message, validateGenericPayload, hp, ht, hc, errOf]
  · obtain ⟨msg, hty⟩ := hstr "type" h
    rcases hp : checkStr raw "phone" with ep | p <;>
      rcases hc : checkObj raw "content" with ec | c <;>
        simp [handle_send_message, validateGenericPayload, hp, hty, hc, errOf]
  · obtain ⟨msg, hc⟩ := hobj h
    rcases hp : checkStr raw "phone" with ep | p <;>
      rcases ht : checkStr raw "type" with et | t <;>
        simp [handle_send_message, validateGenericPayload, hp, ht, hc, errOf]

/-- Witness for the amended C8: a request without a `phone` field is
rejected with a 422 naming `phone`, and no upstream call is made. -/
theorem missing_or_mistyped_fields_rejected_422_witness :
    handle_send_message (some "inst") (some "sess")
      [("type", JValue.str "text"), ("content", JValue.obj [])]
      (.connectionFailure "unused") =
      ⟨none, ⟨422, validationErrorBody [("phone", "Field required")]⟩⟩ := by
  have h := (missing_or_mistyped_fields_rejected_422 (some "inst") (some "sess")
    [("type", JValue.str "text"), ("content", JValue.obj [])]
    (.connectionFailure "unused")).1 (fun s hs => by exact nomatch hs)
  exact h.1

/-- Counterexample to C10 as stated: an upstream response carrying the
non-2xx status 304 whose body fails JSON decoding is surfaced as the 503
`UnavailableError`: `raise_for_status` does not raise for 304, and the
`JSONDecodeError` from `response.json()` is a `RequestException`, so the
general transport-failure branch fires even though an HTTP response was
produced. -/
theorem non2xx_surfaced_as_503_counterexample :
    send_stock_notification_endpoint (some "inst") (some "sess") sampleStockPayload
      (.response 304 "" (.error "Expecting value: line 1 column 1 (char 0)")) =
      ⟨some (stockZawaBody sampleStockPayload),
       ⟨503, errorBody ("Could not connect to Zawa API: " ++
         "Expecting value: line 1 column 1 (char 0)")⟩⟩ ∧ ¬(200 ≤ 304 ∧ 304 < 300) :=
  ⟨rfl, by decide⟩

/-- C10 (amended): an upstream response carrying a 4xx or 5xx status code is
never surfaced through the 503 transport-failure branch — the `HTTPError`
branch is matched first, so the result carries the upstream status and the
`"Error from Zawa API: "` detail and never the
`"Could not connect to Zawa API: "` detail.  (Responses with other non-2xx
codes can reach the transport branch via a JSON-decode failure.) -/
theorem http_error_branch_shields_transport_branch (iid sid : Option String)
    (body : List (String × JValue)) (st : Nat) (text : String)
    (jres : Except String JValue)
    (hi : ¬iid = none) (hs : ¬sid = none) (h4 : 400 ≤ st) (h6 : st < 600) :
    (call_zawa_api iid sid body (.response st text jres)).result =
      .error ⟨st, "Error from Zawa API: " ++ text⟩ ∧
    ∀ m, (call_zawa_api iid sid body (.response st text jres)).result ≠
      .error ⟨503, "Could not connect to Zawa API: " ++ m⟩ := by
  have hcred : ¬(iid = none ∨ sid = none) := by tauto
  have hrange : 400 ≤ st ∧ st < 600 := ⟨h4, h6⟩
  have heq : (call_zawa_api iid sid body (.response st text jres)).result =
      .error ⟨st, "Error from Zawa API: " ++ text⟩ := by
    simp [call_zawa_api, hcred, hrange]
  refine ⟨heq, fun m hc => ?_⟩
  rw [heq] at hc
  injection hc with hc
  exact append_ne_append_of_head_ne "Error from Zawa API: "
    "Could not connect to Zawa API: " text m 'E' 'C' rfl rfl (by decide)
    (congrArg HTTPException.detail hc)

/-- Witness for the amended C10: a concrete upstream 500 is surfaced with
the upstream-error detail, not the transport-failure detail. -/
theorem http_error_branch_shields_transport_branch_witness :
    (call_zawa_api (some "inst") (some "sess") [] (.response 500 "boom" (.error "e"))).result ≠
      .error ⟨503, "Could not connect to Zawa API: " ++ "boom"⟩ :=
  (http_error_branch_shields_transport_branch (some "inst") (some "sess") []
    500 "boom" (.error "e") (by simp) (by simp) (by decide) (by decide)).2 "boom"
